import Mathlib

/-! Verification of `sustainable_procurement/api.py`.

A shallow embedding of the three functions of the module —
`get_coordinates_from_geojson`, `get_nearest_supplier` and
`haversine_distance` — together with proofs about them.

JSON values decoded by `json.loads` are modelled by the inductive `JValue`.
Python's dynamic attribute/subscript errors (`AttributeError`, `TypeError`,
`KeyError`) are modelled explicitly with `Except`, because the source code
performs unguarded `.get`, `[...]` and `for ... in` operations on decoded
data.  The external collaborators (`frappe.db.get_value`, `frappe.get_all`,
`frappe.log_error`, `json.loads`) are modelled by their outcomes: a fetch is
an `Except` value, a raw location string is represented by the outcome of
parsing it (`GeoStr`), and logging is a trace of `LogEntry` values.
-/

/-- A decoded JSON value (the result of `json.loads`): null, booleans,
numbers, strings, arrays and objects.  Numbers are modelled by `ℚ`. -/
inductive JValue where
  | null : JValue
  | bool (b : Bool) : JValue
  | num (q : ℚ) : JValue
  | str (s : String) : JValue
  | arr (elems : List JValue) : JValue
  | obj (fields : List (String × JValue)) : JValue

/-- Python `v == "Point"`: true exactly when `v` is the string `"Point"`
(comparison of a value of any other type with a string yields `False`). -/
def isPointType : JValue → Bool
  | .str s => s == "Point"
  | _ => false

/-- Python dynamic-typing errors that the unguarded accesses in
`get_coordinates_from_geojson` can raise. -/
inductive PyError where
  | attributeError : PyError
  | typeError : PyError
  | keyError : PyError
deriving DecidableEq, Repr

/-- Python truthiness of a decoded JSON value: `None`, `False`, `0`, `""`,
`[]` and `{}` are falsy, everything else is truthy. -/
def truthy : JValue → Bool
  | .null => false
  | .bool b => b
  | .num q => q != 0
  | .str s => !s.isEmpty
  | .arr xs => !xs.isEmpty
  | .obj fs => !fs.isEmpty

/-- Python `v.get(k)` on a decoded value: on a dict it returns the value for
`k` (or `None` when absent); on anything else it raises `AttributeError`. -/
def jget (v : JValue) (k : String) : Except PyError JValue :=
  match v with
  | .obj fs => .ok ((fs.lookup k).getD .null)
  | _ => .error .attributeError

/-- Python `v[k]` on a decoded value: on a dict it returns the value for `k`
(raising `KeyError` when absent); on anything else it raises `TypeError`. -/
def jsub (v : JValue) (k : String) : Except PyError JValue :=
  match v with
  | .obj fs =>
    match fs.lookup k with
    | some x => .ok x
    | none => .error .keyError
  | _ => .error .typeError

/-- Python `for x in v`: arrays iterate their elements, strings their
characters, dicts their keys; other values raise `TypeError`. -/
def pyIter (v : JValue) : Except PyError (List JValue) :=
  match v with
  | .arr xs => .ok xs
  | .str s => .ok (s.toList.map fun c => .str (String.mk [c]))
  | .obj fs => .ok (fs.map fun p => .str p.1)
  | _ => .error .typeError

/-- Python `isinstance(v, (int, float))` on a decoded JSON value.  Note that
Python's `bool` is a subclass of `int`, so JSON booleans pass this check. -/
def numLike : JValue → Bool
  | .bool _ => true
  | .num _ => true
  | _ => false

/-- The `while` loop of `get_coordinates_from_geojson` (lines 22-23):
while the candidate is a non-empty list whose first element is a list,
replace it by that first element. -/
def unwrapCoords : JValue → JValue
  | .arr (JValue.arr ys :: _) => unwrapCoords (JValue.arr ys)
  | c => c

/-- Lines 22-28 of the source applied to a `coordinates` value: unwrap the
nesting, then, if the result is a list of length ≥ 2 whose first two
elements are numeric, return that pair. -/
def coordsPoint (c : JValue) : Option (JValue × JValue) :=
  match unwrapCoords c with
  | .arr (lon :: lat :: _) => if numLike lon && numLike lat then some (lon, lat) else none
  | _ => none

/-- The body of the `for feature in data["features"]` loop (lines 19-28)
applied to one feature: check `feature.get("geometry")` is truthy and its
`type` is `"Point"`, then extract the coordinate pair. -/
def processFeature (feature : JValue) : Except PyError (Option (JValue × JValue)) :=
  match jget feature "geometry" with
  | .error e => .error e
  | .ok g =>
    if truthy g then
      match jsub feature "geometry" with
      | .error e => .error e
      | .ok gv =>
        match jget gv "type" with
        | .error e => .error e
        | .ok ty =>
          if isPointType ty then
            match jsub feature "geometry" with
            | .error e => .error e
            | .ok gv2 =>
              match jget gv2 "coordinates" with
              | .error e => .error e
              | .ok coords => .ok (coordsPoint coords)
          else .ok none
    else .ok none

/-- The feature loop (lines 18-29): return the first feature's point,
skipping features that yield no point; errors propagate. -/
def firstPoint : List JValue → Except PyError (Option (JValue × JValue))
  | [] => .ok none
  | f :: rest =>
    match processFeature f with
    | .error e => .error e
    | .ok (some p) => .ok (some p)
    | .ok none => firstPoint rest

/-- Lines 13-29 of `get_coordinates_from_geojson`, after `json.loads`
succeeded with value `data`. -/
def extractFromData (data : JValue) : Except PyError (Option (JValue × JValue)) :=
  match jget data "features" with
  | .error e => .error e
  | .ok feats =>
    if truthy feats then
      match jsub data "features" with
      | .error e => .error e
      | .ok fv =>
        match pyIter fv with
        | .error e => .error e
        | .ok items => firstPoint items
    else .ok none

/-- A raw GeoJSON string argument, represented by the outcome of parsing it:
falsy (`None` or `""`), non-empty but malformed (so `json.loads` raises),
or successfully parsed to a `JValue`. -/
inductive GeoStr where
  | empty : GeoStr
  | malformed : GeoStr
  | parsed (data : JValue) : GeoStr

/-- The errors `get_coordinates_from_geojson` can raise: the `json.loads`
parse error, or a dynamic typing error from the unguarded accesses. -/
inductive ExtractError where
  | parseError : ExtractError
  | pyErr (e : PyError) : ExtractError
deriving DecidableEq, Repr

/-- `get_coordinates_from_geojson` (lines 5-29): falsy input returns `None`;
malformed input raises the parse error; otherwise extract from the parsed
data. -/
def get_coordinates_from_geojson : GeoStr → Except ExtractError (Option (JValue × JValue))
  | .empty => .ok none
  | .malformed => .error .parseError
  | .parsed data => (extractFromData data).mapError ExtractError.pyErr

/-! Section: the haversine distance (lines 91-105). -/

/-- `math.radians`: degrees to radians. -/
noncomputable def radians (x : ℝ) : ℝ := x * (Real.pi / 180)

/-- The intermediate value `a` of the haversine formula (line 102):
`a = sin(dlat/2)**2 + cos(lat1) * cos(lat2) * sin(dlon/2)**2`, after the
four inputs have been converted to radians. -/
noncomputable def haversine_a (lon1 lat1 lon2 lat2 : ℝ) : ℝ :=
  Real.sin ((radians lat2 - radians lat1) / 2) ^ 2 +
    Real.cos (radians lat1) * Real.cos (radians lat2) *
      Real.sin ((radians lon2 - radians lon1) / 2) ^ 2

/-- `haversine_distance` (lines 91-105): `c = 2 * asin(sqrt(a))`, result
`c * 6371` kilometers.  Python's `float` coercion of the numeric inputs is
the identity on the reals modelled here (see `jnum` for the values the
callers pass). -/
noncomputable def haversine_distance (lon1 lat1 lon2 lat2 : ℝ) : ℝ :=
  2 * Real.arcsin (Real.sqrt (haversine_a lon1 lat1 lon2 lat2)) * 6371

/-! Section: `get_nearest_supplier` (lines 32-88).

The frappe collaborators are modelled by their outcomes for the one query
under consideration: `DbEnv.warehouseFetch` is the outcome of
`frappe.db.get_value("Warehouse", warehouse, "custom_geolocation")` and
`DbEnv.supplierFetch` the outcome of `frappe.get_all("Supplier", ...)`.
`frappe.log_error` calls are recorded as `LogEntry` values (identity and
category of each logged failure), and whether each fetch was issued is
recorded in the `CallResult` flags. -/

/-- `float(v)` applied to the values the extractor can return (Python ints,
floats and bools; `float(True) = 1.0`, `float(False) = 0.0`).  The extractor
only returns `num` or `bool` values, so the remaining cases are unreachable
at the call sites. -/
noncomputable def jnum : JValue → ℝ
  | .num q => (q : ℝ)
  | .bool b => if b then 1 else 0
  | _ => 0

/-- One row of the `frappe.get_all("Supplier", ...)` result: the `name` and
`custom_geolocation` fields of an enabled supplier. -/
structure Supplier where
  name : String
  custom_geolocation : GeoStr

/-- Outcomes of the two data-access calls of `get_nearest_supplier`; an
`Except.error` models the upstream call raising. -/
structure DbEnv where
  warehouseFetch : Except String GeoStr
  supplierFetch : Except String (List Supplier)

/-- One `frappe.log_error` call, recorded with the identity it reports and
distinguished by its category title (lines 50 and 85). -/
inductive LogEntry where
  | warehouseParseError (warehouse : String) : LogEntry
  | supplierParseError (supplier : String) : LogEntry
deriving DecidableEq, Repr

/-- The result dictionary `{"name": ..., "distance": ...}` (lines 80-83). -/
structure NearestInfo where
  name : String
  distance : ℝ

/-- The mutable state of the supplier loop: `nearest_supplier_info`,
`min_distance` (an `EReal`, since it is initialised to `float('inf')`), and
the log entries emitted so far. -/
structure LoopState where
  best : Option NearestInfo
  minD : EReal
  logs : List LogEntry

open Classical in
/-- The `for supplier in enabled_suppliers` loop (lines 64-86): skip a
supplier whose extraction raises (logging it) or yields no point; otherwise
compute the haversine distance to the warehouse and update the running
minimum on strict less-than. -/
noncomputable def supplierLoop (lon1 lat1 : ℝ) : List Supplier → LoopState → LoopState
  | [], st => st
  | s :: rest, st =>
    match get_coordinates_from_geojson s.custom_geolocation with
    | .error _ =>
        supplierLoop lon1 lat1 rest
          { st with logs := st.logs ++ [.supplierParseError s.name] }
    | .ok none => supplierLoop lon1 lat1 rest st
    | .ok (some (lonJ, latJ)) =>
        let d := haversine_distance lon1 lat1 (jnum lonJ) (jnum latJ)
        if (d : EReal) < st.minD then
          supplierLoop lon1 lat1 rest { best := some ⟨s.name, d⟩, minD := (d : EReal), logs := st.logs }
        else
          supplierLoop lon1 lat1 rest st

/-- The observable outcome of one `get_nearest_supplier` call: the returned
value (or the propagated exception), whether each data-access call was
issued, and the log entries emitted. -/
structure CallResult where
  result : Except String (Option NearestInfo)
  warehouseFetched : Bool
  suppliersFetched : Bool
  logs : List LogEntry

/-- `get_nearest_supplier` (lines 32-88).  A falsy warehouse id returns
`None` at once.  The warehouse fetch, extraction, and the `ValueError` for a
missing point are wrapped in one `try` whose handler logs and returns
`None`.  The supplier fetch is not wrapped: its failure propagates.  Then
the supplier loop runs from `(None, inf)`. -/
noncomputable def get_nearest_supplier (warehouse : String) (env : DbEnv) : CallResult :=
  if warehouse = "" then
    { result := .ok none, warehouseFetched := false, suppliersFetched := false, logs := [] }
  else
    match env.warehouseFetch with
    | .error _ =>
        { result := .ok none, warehouseFetched := true, suppliersFetched := false,
          logs := [.warehouseParseError warehouse] }
    | .ok wloc =>
      match get_coordinates_from_geojson wloc with
      | .error _ =>
          { result := .ok none, warehouseFetched := true, suppliersFetched := false,
            logs := [.warehouseParseError warehouse] }
      | .ok none =>
          { result := .ok none, warehouseFetched := true, suppliersFetched := false,
            logs := [.warehouseParseError warehouse] }
      | .ok (some (lonJ, latJ)) =>
        match env.supplierFetch with
        | .error e =>
            { result := .error e, warehouseFetched := true, suppliersFetched := true, logs := [] }
        | .ok suppliers =>
            let final := supplierLoop (jnum lonJ) (jnum latJ) suppliers ⟨none, ⊤, []⟩
            { result := .ok final.best, warehouseFetched := true, suppliersFetched := true,
              logs := final.logs }

/-- The name/distance pairs of the suppliers whose locations yield a valid
point, in list order (the candidates the claim about the minimum quantifies
over). -/
noncomputable def supplierDists (lon1 lat1 : ℝ) : List Supplier → List (String × ℝ)
  | [] => []
  | s :: rest =>
    match get_coordinates_from_geojson s.custom_geolocation with
    | .ok (some (lonJ, latJ)) =>
        (s.name, haversine_distance lon1 lat1 (jnum lonJ) (jnum latJ)) ::
          supplierDists lon1 lat1 rest
    | _ => supplierDists lon1 lat1 rest

/-! Section: lemmas about the extractor. -/

theorem firstPoint_none_iff (fs : List JValue) :
    firstPoint fs = .ok none ↔ ∀ f ∈ fs, processFeature f = .ok none := by
  induction fs with
  | nil => simp [firstPoint]
  | cons g rest ih =>
    rcases hg : processFeature g with e | r
    · simp [firstPoint, hg]
    · rcases r with _ | p
      · simp [firstPoint, hg, ih]
      · simp only [firstPoint, hg]
        constructor
        · intro h; exact absurd h (by simp)
        · intro h; exact absurd (h g (by simp)) (by simp [hg])

theorem firstPoint_some_iff (fs : List JValue) (p : JValue × JValue) :
    firstPoint fs = .ok (some p) ↔
      ∃ l1 f l2, fs = l1 ++ f :: l2 ∧ (∀ g ∈ l1, processFeature g = .ok none) ∧
        processFeature f = .ok (some p) := by
  induction fs with
  | nil =>
    simp only [firstPoint]
    constructor
    · intro h; exact absurd h (by simp)
    · rintro ⟨l1, f, l2, h, -, -⟩; exact absurd h (by simp)
  | cons g rest ih =>
    rcases hg : processFeature g with e | r
    · simp only [firstPoint, hg]
      constructor
      · intro h; exact absurd h (by simp)
      · rintro ⟨l1, f, l2, hfs, hl1, hf⟩
        rcases l1 with _ | ⟨x, l1'⟩
        · simp only [List.nil_append, List.cons.injEq] at hfs
          rw [← hfs.1] at hf; rw [hf] at hg; exact absurd hg (by simp)
        · simp only [List.cons_append, List.cons.injEq] at hfs
          have := hl1 x (by simp)
          rw [← hfs.1] at this; rw [this] at hg; exact absurd hg (by simp)
    · rcases r with _ | q
      · simp only [firstPoint, hg]
        rw [ih]
        constructor
        · rintro ⟨l1, f, l2, hfs, hl1, hf⟩
          exact ⟨g :: l1, f, l2, by rw [hfs]; simp, by
            intro x hx
            rcases List.mem_cons.mp hx with h | h
            · rw [h]; exact hg
            · exact hl1 x h, hf⟩
        · rintro ⟨l1, f, l2, hfs, hl1, hf⟩
          rcases l1 with _ | ⟨x, l1'⟩
          · simp only [List.nil_append, List.cons.injEq] at hfs
            rw [← hfs.1] at hf; rw [hf] at hg; exact absurd hg (by simp)
          · simp only [List.cons_append, List.cons.injEq] at hfs
            exact ⟨l1', f, l2, hfs.2, fun y hy => hl1 y (by simp [hy]), hf⟩
      · simp only [firstPoint, hg]
        constructor
        · intro h
          have hq : q = p := by
            have := h; simp only [Except.ok.injEq, Option.some.injEq] at this; exact this
          exact ⟨[], g, rest, by simp, by simp, by rw [hg, hq]⟩
        · rintro ⟨l1, f, l2, hfs, hl1, hf⟩
          rcases l1 with _ | ⟨x, l1'⟩
          · simp only [List.nil_append, List.cons.injEq] at hfs
            rw [← hfs.1] at hf; rw [hf] at hg
            simp only [Except.ok.injEq, Option.some.injEq] at hg
            rw [hg]
          · simp only [List.cons_append, List.cons.injEq] at hfs
            have := hl1 x (by simp)
            rw [← hfs.1] at this; rw [this] at hg; exact absurd hg (by simp)
theorem extractFromData_obj_arr (fields : List (String × JValue)) (items : List JValue)
    (h : fields.lookup "features" = some (.arr items)) (hne : items ≠ []) :
    extractFromData (.obj fields) = firstPoint items := by
  have htr : truthy (.arr items) = true := by
    rcases items with _ | ⟨x, xs⟩
    · exact absurd rfl hne
    · simp [truthy]
  simp [extractFromData, jget, jsub, pyIter, h, htr]

theorem extractFromData_falsy (fields : List (String × JValue))
    (h : truthy ((fields.lookup "features").getD .null) = false) :
    extractFromData (.obj fields) = .ok none := by
  simp [extractFromData, jget, h]

theorem mapError_ne_parseError {α : Type} (r : Except PyError α) :
    r.mapError ExtractError.pyErr ≠ .error .parseError := by
  rcases r with e | a <;> simp [Except.mapError]

theorem mapError_ok_iff {α : Type} (r : Except PyError α) (a : α) :
    r.mapError ExtractError.pyErr = .ok a ↔ r = .ok a := by
  rcases r with e | b <;> simp [Except.mapError]

def pointFeature (lon lat : ℚ) : JValue :=
  .obj [("geometry", .obj [("type", .str "Point"), ("coordinates", .arr [.num lon, .num lat])])]

def polyFeature : JValue :=
  .obj [("geometry", .obj [("type", .str "Polygon"), ("coordinates", .arr [.num 0, .num 1])])]

def nestedPointDoc : JValue :=
  .obj [("features", .arr [.obj [("geometry",
    .obj [("type", .str "Point"),
          ("coordinates", .arr [.arr [.arr [.num (5/2), .num (244/5)]]])])]])]

def badFeatureDoc : JValue := .obj [("features", .arr [.num 5, pointFeature 1 2])]

def pointDoc (lon lat : ℚ) : JValue := .obj [("features", .arr [pointFeature lon lat])]

def featureOk (f : JValue) : Bool :=
  match processFeature f with
  | .ok _ => true
  | .error _ => false

def featsShaped : JValue → Bool
  | .arr items => items.isEmpty || items.all featureOk
  | v => !(truthy v)

def docShaped : JValue → Bool
  | .obj fs => featsShaped ((fs.lookup "features").getD .null)
  | _ => false

def geoShaped : GeoStr → Bool
  | .parsed data => docShaped data
  | _ => true

def absentSpec (g : GeoStr) : Prop :=
  g = .empty ∨
  ∃ fields, g = .parsed (.obj fields) ∧
    (truthy ((fields.lookup "features").getD .null) = false ∨
     ∃ items, fields.lookup "features" = some (.arr items) ∧
       ∀ f ∈ items, processFeature f = .ok none)

open Classical in
noncomputable def pairFold : List (String × ℝ) → Option NearestInfo → EReal → Option NearestInfo
  | [], best, _ => best
  | (n, d) :: rest, best, m =>
    if (d : EReal) < m then pairFold rest (some ⟨n, d⟩) (d : EReal) else pairFold rest best m

theorem supplierLoop_append (lon1 lat1 : ℝ) (A B : List Supplier) (st : LoopState) :
    supplierLoop lon1 lat1 (A ++ B) st = supplierLoop lon1 lat1 B (supplierLoop lon1 lat1 A st) := by
  induction A generalizing st with
  | nil => simp [supplierLoop]
  | cons s rest ih =>
    rw [List.cons_append]
    rcases h : get_coordinates_from_geojson s.custom_geolocation with e | r
    · simp only [supplierLoop, h]; exact ih _
    · rcases r with _ | ⟨lonJ, latJ⟩
      · simp only [supplierLoop, h]; exact ih _
      · simp only [supplierLoop, h]
        split_ifs <;> exact ih _

theorem supplierLoop_factor (lon1 lat1 : ℝ) (L : List Supplier) (b : Option NearestInfo)
    (m : EReal) (lg : List LogEntry) :
    supplierLoop lon1 lat1 L ⟨b, m, lg⟩ =
      ⟨(supplierLoop lon1 lat1 L ⟨b, m, []⟩).best,
       (supplierLoop lon1 lat1 L ⟨b, m, []⟩).minD,
       lg ++ (supplierLoop lon1 lat1 L ⟨b, m, []⟩).logs⟩ := by
  induction L generalizing b m lg with
  | nil => simp [supplierLoop]
  | cons s rest ih =>
    rcases h : get_coordinates_from_geojson s.custom_geolocation with e | r
    · simp only [supplierLoop, h]
      rw [ih b m (lg ++ [LogEntry.supplierParseError s.name]), ih b m ([] ++ [LogEntry.supplierParseError s.name])]
      simp
    · rcases r with _ | ⟨lonJ, latJ⟩
      · simp only [supplierLoop, h]
        exact ih b m lg
      · simp only [supplierLoop, h]
        split_ifs with hd
        · exact ih _ _ lg
        · exact ih b m lg

theorem supplierLoop_best (lon1 lat1 : ℝ) (L : List Supplier) (b : Option NearestInfo)
    (m : EReal) (lg : List LogEntry) :
    (supplierLoop lon1 lat1 L ⟨b, m, lg⟩).best = pairFold (supplierDists lon1 lat1 L) b m := by
  induction L generalizing b m lg with
  | nil => simp [supplierLoop, supplierDists, pairFold]
  | cons s rest ih =>
    rcases h : get_coordinates_from_geojson s.custom_geolocation with e | r
    · simp only [supplierLoop, supplierDists, h]; exact ih _ _ _
    · rcases r with _ | ⟨lonJ, latJ⟩
      · simp only [supplierLoop, supplierDists, h]; exact ih _ _ _
      · simp only [supplierLoop, supplierDists, h, pairFold]
        split_ifs with hd
        · exact ih _ _ _
        · exact ih _ _ _

theorem pairFold_acc_spec (L : List (String × ℝ)) :
    ∀ (n0 : String) (d0 : ℝ),
      ∃ r : NearestInfo, pairFold L (some ⟨n0, d0⟩) (d0 : EReal) = some r ∧
        r.distance ≤ d0 ∧ (∀ p ∈ L, r.distance ≤ p.2) ∧
        ((r = ⟨n0, d0⟩ ∧ ∀ p ∈ L, d0 ≤ p.2) ∨
         (∃ l1 l2, L = l1 ++ (r.name, r.distance) :: l2 ∧ r.distance < d0 ∧
           ∀ p ∈ l1, r.distance < p.2)) := by
  induction L with
  | nil =>
    intro n0 d0
    exact ⟨⟨n0, d0⟩, rfl, le_refl _, by simp, Or.inl ⟨rfl, by simp⟩⟩
  | cons hd rest ih =>
    obtain ⟨n, d⟩ := hd
    intro n0 d0
    by_cases hd0 : ((d : ℝ) : EReal) < ((d0 : ℝ) : EReal)
    · have hdR : d < d0 := EReal.coe_lt_coe_iff.mp hd0
      obtain ⟨r, hr, hle, hmin, hcases⟩ := ih n d
      refine ⟨r, ?_, le_trans hle (le_of_lt hdR), ?_, ?_⟩
      · simp only [pairFold, if_pos hd0]; exact hr
      · intro p hp
        rcases List.mem_cons.mp hp with h | h
        · rw [h]; exact hle
        · exact hmin p h
      · rcases hcases with ⟨hreq, hall⟩ | ⟨l1, l2, hdec, hlt, hpre⟩
        · refine Or.inr ⟨[], rest, ?_, ?_, by simp⟩
          · rw [hreq]; simp
          · rw [hreq]; exact hdR
        · refine Or.inr ⟨(n, d) :: l1, l2, by rw [hdec]; simp, lt_trans hlt hdR, ?_⟩
          intro p hp
          rcases List.mem_cons.mp hp with h | h
          · rw [h]; exact hlt
          · exact hpre p h
    · obtain ⟨r, hr, hle, hmin, hcases⟩ := ih n0 d0
      have hd0R : d0 ≤ d := by
        by_contra hlt
        push_neg at hlt
        exact hd0 (EReal.coe_lt_coe_iff.mpr hlt)
      refine ⟨r, ?_, hle, ?_, ?_⟩
      · simp only [pairFold, if_neg hd0]; exact hr
      · intro p hp
        rcases List.mem_cons.mp hp with h | h
        · rw [h]; exact le_trans hle hd0R
        · exact hmin p h
      · rcases hcases with ⟨hreq, hall⟩ | ⟨l1, l2, hdec, hlt, hpre⟩
        · refine Or.inl ⟨hreq, ?_⟩
          intro p hp
          rcases List.mem_cons.mp hp with h | h
          · rw [h]; exact hd0R
          · exact hall p h
        · refine Or.inr ⟨(n, d) :: l1, l2, by rw [hdec]; simp, hlt, ?_⟩
          intro p hp
          rcases List.mem_cons.mp hp with h | h
          · rw [h]; exact lt_of_lt_of_le hlt hd0R
          · exact hpre p h

theorem pairFold_spec (L : List (String × ℝ)) :
    (L = [] ∧ pairFold L none ⊤ = none) ∨
    (∃ r l1 l2, pairFold L none ⊤ = some r ∧ L = l1 ++ (r.name, r.distance) :: l2 ∧
      (∀ p ∈ l1, r.distance < p.2) ∧ ∀ p ∈ L, r.distance ≤ p.2) := by
  rcases L with _ | ⟨⟨n, d⟩, rest⟩
  · exact Or.inl ⟨rfl, rfl⟩
  · right
    have htop : ((d : ℝ) : EReal) < ⊤ := EReal.coe_lt_top d
    obtain ⟨r, hr, hle, hmin, hcases⟩ := pairFold_acc_spec rest n d
    have hfold : pairFold ((n, d) :: rest) none ⊤ = some r := by
      simp only [pairFold, if_pos htop]; exact hr
    rcases hcases with ⟨hreq, hall⟩ | ⟨l1, l2, hdec, hlt, hpre⟩
    · refine ⟨r, [], rest, hfold, by rw [hreq]; simp, by simp, ?_⟩
      intro p hp
      rcases List.mem_cons.mp hp with h | h
      · rw [h]; exact hle
      · exact hmin p h
    · refine ⟨r, (n, d) :: l1, l2, hfold, by rw [hdec]; simp, ?_, ?_⟩
      · intro p hp
        rcases List.mem_cons.mp hp with h | h
        · rw [h]; exact hlt
        · exact hpre p h
      · intro p hp
        rcases List.mem_cons.mp hp with h | h
        · rw [h]; exact hle
        · exact hmin p h

theorem gns_happy (warehouse : String) (env : DbEnv) (w : GeoStr) (lonJ latJ : JValue)
    (sups : List Supplier) (hne : warehouse ≠ "") (hw : env.warehouseFetch = .ok w)
    (hx : get_coordinates_from_geojson w = .ok (some (lonJ, latJ)))
    (hs : env.supplierFetch = .ok sups) :
    get_nearest_supplier warehouse env =
      { result := .ok (supplierLoop (jnum lonJ) (jnum latJ) sups ⟨none, ⊤, []⟩).best,
        warehouseFetched := true, suppliersFetched := true,
        logs := (supplierLoop (jnum lonJ) (jnum latJ) sups ⟨none, ⊤, []⟩).logs } := by
  simp only [get_nearest_supplier, if_neg hne, hw, hx, hs]

/-! Section: trigonometric helper lemmas for the haversine claims. -/

theorem trig_inner_sq_le_one (x y d : ℝ) :
    (Real.sin x * Real.sin y + Real.cos x * Real.cos y * Real.cos d) ^ 2 ≤ 1 := by
  have hx := Real.sin_sq_add_cos_sq x
  have hy := Real.sin_sq_add_cos_sq y
  have hd := Real.sin_sq_add_cos_sq d
  have h1 : (Real.sin x * Real.sin y + Real.cos x * Real.cos y * Real.cos d) ^ 2
      + (Real.sin x * Real.cos y * Real.cos d - Real.cos x * Real.sin y) ^ 2
      = Real.sin y ^ 2 + Real.cos y ^ 2 * Real.cos d ^ 2 := by
    linear_combination (Real.sin y ^ 2 + Real.cos y ^ 2 * Real.cos d ^ 2) * hx
  have hcd : Real.cos d ^ 2 = 1 - Real.sin d ^ 2 := by linarith
  have h2 : Real.cos y ^ 2 * Real.cos d ^ 2 = Real.cos y ^ 2 - (Real.cos y * Real.sin d) ^ 2 := by
    rw [hcd]; ring
  nlinarith [sq_nonneg (Real.sin x * Real.cos y * Real.cos d - Real.cos x * Real.sin y),
    sq_nonneg (Real.cos y * Real.sin d)]

theorem haversine_a_eq (lon1 lat1 lon2 lat2 : ℝ) :
    haversine_a lon1 lat1 lon2 lat2 =
      (1 - (Real.sin (radians lat1) * Real.sin (radians lat2) +
        Real.cos (radians lat1) * Real.cos (radians lat2) *
          Real.cos (radians lon2 - radians lon1))) / 2 := by
  unfold haversine_a
  rw [Real.sin_sq_eq_half_sub, Real.sin_sq_eq_half_sub]
  have h2 : ∀ A : ℝ, 2 * (A / 2) = A := fun A => by ring
  rw [h2, h2, Real.cos_sub (radians lat2) (radians lat1)]
  ring

theorem haversine_a_mem (lon1 lat1 lon2 lat2 : ℝ) :
    0 ≤ haversine_a lon1 lat1 lon2 lat2 ∧ haversine_a lon1 lat1 lon2 lat2 ≤ 1 := by
  have hb := trig_inner_sq_le_one (radians lat1) (radians lat2) (radians lon2 - radians lon1)
  rw [haversine_a_eq]
  constructor
  · nlinarith [sq_nonneg (Real.sin (radians lat1) * Real.sin (radians lat2) +
      Real.cos (radians lat1) * Real.cos (radians lat2) * Real.cos (radians lon2 - radians lon1) - 1)]
  · nlinarith [sq_nonneg (Real.sin (radians lat1) * Real.sin (radians lat2) +
      Real.cos (radians lat1) * Real.cos (radians lat2) * Real.cos (radians lon2 - radians lon1) + 1)]

theorem sin_half_sq_swap (u v : ℝ) : Real.sin ((u - v)/2) ^ 2 = Real.sin ((v - u)/2) ^ 2 := by
  rw [show (u - v)/2 = -((v - u)/2) by ring, Real.sin_neg]; ring

/-! Section: the claims. -/

/-- C8: `haversine_distance` is symmetric — swapping the two points
gives the same value — and returns `0` for every pair of identical
points. -/
theorem haversine_symm_and_zero (lon1 lat1 lon2 lat2 : ℝ) :
    haversine_distance lon1 lat1 lon2 lat2 = haversine_distance lon2 lat2 lon1 lat1 ∧
    haversine_distance lon1 lat1 lon1 lat1 = 0 := by
  constructor
  · unfold haversine_distance
    have h : haversine_a lon1 lat1 lon2 lat2 = haversine_a lon2 lat2 lon1 lat1 := by
      unfold haversine_a
      rw [sin_half_sq_swap (radians lat2) (radians lat1),
        sin_half_sq_swap (radians lon2) (radians lon1)]
      ring
    rw [h]
  · unfold haversine_distance haversine_a
    simp

/-- C9: for all real inputs (no restriction to valid longitude/latitude
ranges) the haversine computation stays within the domains of `sqrt` and
`asin` — the `sqrt` argument `a` lies in `[0, 1]`, hence the `asin` argument
`sqrt a` lies in `[0, 1]` — and the resulting distance is non-negative, so
the function completes without any error condition. -/
theorem haversine_total_nonneg (lon1 lat1 lon2 lat2 : ℝ) :
    0 ≤ haversine_a lon1 lat1 lon2 lat2 ∧ haversine_a lon1 lat1 lon2 lat2 ≤ 1 ∧
    0 ≤ Real.sqrt (haversine_a lon1 lat1 lon2 lat2) ∧
    Real.sqrt (haversine_a lon1 lat1 lon2 lat2) ≤ 1 ∧
    0 ≤ haversine_distance lon1 lat1 lon2 lat2 := by
  obtain ⟨h0, h1⟩ := haversine_a_mem lon1 lat1 lon2 lat2
  refine ⟨h0, h1, Real.sqrt_nonneg _, Real.sqrt_le_one.mpr h1, ?_⟩
  have h := Real.arcsin_nonneg.mpr (Real.sqrt_nonneg (haversine_a lon1 lat1 lon2 lat2))
  unfold haversine_distance
  nlinarith [h]

/-- C7: for the empty warehouse id, `get_nearest_supplier` returns
`None` immediately: neither the warehouse-location fetch nor the
supplier-list fetch is issued, and nothing is logged. -/
theorem empty_warehouse_no_calls (env : DbEnv) :
    get_nearest_supplier "" env =
      { result := .ok none, warehouseFetched := false, suppliersFetched := false,
        logs := [] } := by
  simp [get_nearest_supplier]

/-- C4: when the warehouse id is non-empty and its location string is
absent, malformed, or yields no valid point (the fetch itself succeeding),
`get_nearest_supplier` returns `None` — no exception reaches the caller —
and the failure is reported by exactly one warehouse-category log entry. -/
theorem warehouse_failure_soft (warehouse : String) (env : DbEnv) (w : GeoStr)
    (hne : warehouse ≠ "") (hw : env.warehouseFetch = .ok w)
    (hfail : get_coordinates_from_geojson w = .ok none ∨
             ∃ e, get_coordinates_from_geojson w = .error e) :
    (get_nearest_supplier warehouse env).result = .ok none ∧
    (get_nearest_supplier warehouse env).logs = [.warehouseParseError warehouse] := by
  rcases hfail with h | ⟨e, h⟩ <;>
    simp [get_nearest_supplier, if_neg hne, hw, h]

def c4Env : DbEnv := { warehouseFetch := .ok .malformed, supplierFetch := .ok [] }

theorem warehouse_failure_soft_witness :
    ("W" : String) ≠ "" ∧ c4Env.warehouseFetch = .ok .malformed ∧
    get_coordinates_from_geojson .malformed = .error .parseError ∧
    (get_nearest_supplier "W" c4Env).result = .ok none ∧
    (get_nearest_supplier "W" c4Env).logs = [.warehouseParseError "W"] := by
  refine ⟨by decide, rfl, rfl, ?_, ?_⟩
  · exact (warehouse_failure_soft "W" c4Env .malformed (by decide) rfl
      (Or.inr ⟨.parseError, rfl⟩)).1
  · exact (warehouse_failure_soft "W" c4Env .malformed (by decide) rfl
      (Or.inr ⟨.parseError, rfl⟩)).2

/-- C6: asymmetric propagation — a failing warehouse-location fetch is
caught (the call returns `None` with one warehouse log entry), while a
failing supplier-list fetch propagates its exception to the caller. -/
theorem error_propagation_asymmetry (warehouse : String) (env : DbEnv)
    (hne : warehouse ≠ "") :
    (∀ e, env.warehouseFetch = .error e →
      (get_nearest_supplier warehouse env).result = .ok none ∧
      (get_nearest_supplier warehouse env).logs = [.warehouseParseError warehouse]) ∧
    (∀ w lonJ latJ e, env.warehouseFetch = .ok w →
      get_coordinates_from_geojson w = .ok (some (lonJ, latJ)) →
      env.supplierFetch = .error e →
      (get_nearest_supplier warehouse env).result = .error e) := by
  constructor
  · intro e he
    constructor <;> simp [get_nearest_supplier, if_neg hne, he]
  · intro w lonJ latJ e hw hx hs
    simp [get_nearest_supplier, if_neg hne, hw, hx, hs]

def c6EnvA : DbEnv := { warehouseFetch := .error "db down", supplierFetch := .ok [] }

def c6EnvB : DbEnv :=
  { warehouseFetch := .ok (.parsed (pointDoc 0 0)), supplierFetch := .error "boom" }

theorem error_propagation_asymmetry_witness :
    ("W" : String) ≠ "" ∧
    (get_nearest_supplier "W" c6EnvA).result = .ok none ∧
    (get_nearest_supplier "W" c6EnvB).result = .error "boom" := by
  refine ⟨by decide, ?_, ?_⟩
  · exact ((error_propagation_asymmetry "W" c6EnvA (by decide)).1 "db down" rfl).1
  · exact (error_propagation_asymmetry "W" c6EnvB (by decide)).2
      (.parsed (pointDoc 0 0)) (.num 0) (.num 0) "boom" rfl rfl rfl

theorem supplierLoop_skip_bad (lon1 lat1 : ℝ) (pre post : List Supplier) (bad : Supplier)
    (hbad : (∃ e, get_coordinates_from_geojson bad.custom_geolocation = .error e) ∨
            get_coordinates_from_geojson bad.custom_geolocation = .ok none) :
    (supplierLoop lon1 lat1 (pre ++ bad :: post) ⟨none, ⊤, []⟩).best =
      (supplierLoop lon1 lat1 (pre ++ post) ⟨none, ⊤, []⟩).best ∧
    ((∃ e, get_coordinates_from_geojson bad.custom_geolocation = .error e) →
      LogEntry.supplierParseError bad.name ∈
        (supplierLoop lon1 lat1 (pre ++ bad :: post) ⟨none, ⊤, []⟩).logs) := by
  rw [supplierLoop_append, supplierLoop_append]
  generalize supplierLoop lon1 lat1 pre ⟨none, ⊤, []⟩ = st1
  obtain ⟨b, m, lg⟩ := st1
  rcases hbad with ⟨e, he⟩ | he
  · constructor
    · simp only [supplierLoop, he]
      rw [supplierLoop_factor lon1 lat1 post b m (lg ++ [LogEntry.supplierParseError bad.name]),
        supplierLoop_factor lon1 lat1 post b m lg]
    · intro _
      simp only [supplierLoop, he]
      rw [supplierLoop_factor lon1 lat1 post b m (lg ++ [LogEntry.supplierParseError bad.name])]
      simp
  · constructor
    · simp only [supplierLoop, he]
    · rintro ⟨e, he'⟩
      rw [he'] at he
      exact Except.noConfusion he

/-- C5: a supplier whose location is malformed (extraction raises) or
yields no valid point is skipped — the result equals the result for the
supplier list with that supplier removed — and in the raising case a log
entry carrying the supplier's identity is emitted; one bad supplier never
aborts the search. -/
theorem bad_supplier_skipped (warehouse : String) (env : DbEnv) (w : GeoStr)
    (lonJ latJ : JValue) (pre post : List Supplier) (bad : Supplier)
    (hne : warehouse ≠ "") (hw : env.warehouseFetch = .ok w)
    (hx : get_coordinates_from_geojson w = .ok (some (lonJ, latJ)))
    (hs : env.supplierFetch = .ok (pre ++ bad :: post))
    (hbad : (∃ e, get_coordinates_from_geojson bad.custom_geolocation = .error e) ∨
            get_coordinates_from_geojson bad.custom_geolocation = .ok none) :
    (get_nearest_supplier warehouse env).result =
      (get_nearest_supplier warehouse ⟨env.warehouseFetch, .ok (pre ++ post)⟩).result ∧
    ((∃ e, get_coordinates_from_geojson bad.custom_geolocation = .error e) →
      LogEntry.supplierParseError bad.name ∈ (get_nearest_supplier warehouse env).logs) := by
  have h1 := gns_happy warehouse env w lonJ latJ (pre ++ bad :: post) hne hw hx hs
  have h2 := gns_happy warehouse ⟨env.warehouseFetch, .ok (pre ++ post)⟩ w lonJ latJ
    (pre ++ post) hne hw hx rfl
  obtain ⟨hbest, hmem⟩ := supplierLoop_skip_bad (jnum lonJ) (jnum latJ) pre post bad hbad
  constructor
  · rw [h1, h2]
    simp only []
    rw [hbest]
  · intro he
    rw [h1]
    exact hmem he

def c5Env : DbEnv :=
  { warehouseFetch := .ok (.parsed (pointDoc 0 0)),
    supplierFetch := .ok [⟨"A", .parsed (pointDoc 0 1)⟩, ⟨"X", .malformed⟩] }

theorem bad_supplier_skipped_witness :
    ("W" : String) ≠ "" ∧
    c5Env.supplierFetch = .ok ([⟨"A", .parsed (pointDoc 0 1)⟩] ++ (⟨"X", .malformed⟩ : Supplier) :: []) ∧
    get_coordinates_from_geojson (GeoStr.malformed) = .error .parseError ∧
    (get_nearest_supplier "W" c5Env).result =
      (get_nearest_supplier "W" ⟨c5Env.warehouseFetch, .ok ([⟨"A", .parsed (pointDoc 0 1)⟩] ++ [])⟩).result ∧
    LogEntry.supplierParseError "X" ∈ (get_nearest_supplier "W" c5Env).logs := by
  refine ⟨by decide, rfl, rfl, ?_, ?_⟩
  · exact (bad_supplier_skipped "W" c5Env (.parsed (pointDoc 0 0)) (.num 0) (.num 0)
      [⟨"A", .parsed (pointDoc 0 1)⟩] [] ⟨"X", .malformed⟩ (by decide) rfl rfl rfl
      (Or.inl ⟨.parseError, rfl⟩)).1
  · exact (bad_supplier_skipped "W" c5Env (.parsed (pointDoc 0 0)) (.num 0) (.num 0)
      [⟨"A", .parsed (pointDoc 0 1)⟩] [] ⟨"X", .malformed⟩ (by decide) rfl rfl rfl
      (Or.inl ⟨.parseError, rfl⟩)).2 ⟨.parseError, rfl⟩

/-- C1: when the warehouse location yields a valid point and the
supplier list is fetched, the call returns `None` exactly when no supplier
yields a valid point; otherwise it returns the first supplier (in list
order) whose distance attains the minimum — every earlier valid supplier is
strictly farther (ties keep the first, since the running minimum is updated
only on strict less-than) and no valid supplier is strictly nearer. -/
theorem nearest_supplier_first_minimum (warehouse : String) (env : DbEnv) (w : GeoStr)
    (lonJ latJ : JValue) (sups : List Supplier)
    (hne : warehouse ≠ "") (hw : env.warehouseFetch = .ok w)
    (hx : get_coordinates_from_geojson w = .ok (some (lonJ, latJ)))
    (hs : env.supplierFetch = .ok sups) :
    (supplierDists (jnum lonJ) (jnum latJ) sups = [] →
      (get_nearest_supplier warehouse env).result = .ok none) ∧
    (supplierDists (jnum lonJ) (jnum latJ) sups ≠ [] →
      ∃ r l1 l2, (get_nearest_supplier warehouse env).result = .ok (some r) ∧
        supplierDists (jnum lonJ) (jnum latJ) sups = l1 ++ (r.name, r.distance) :: l2 ∧
        (∀ p ∈ l1, r.distance < p.2) ∧
        (∀ p ∈ supplierDists (jnum lonJ) (jnum latJ) sups, r.distance ≤ p.2)) := by
  have hred := gns_happy warehouse env w lonJ latJ sups hne hw hx hs
  have hbest : (get_nearest_supplier warehouse env).result =
      .ok (pairFold (supplierDists (jnum lonJ) (jnum latJ) sups) none ⊤) := by
    rw [hred]
    simp only []
    rw [supplierLoop_best]
  rcases pairFold_spec (supplierDists (jnum lonJ) (jnum latJ) sups) with
    ⟨hnil, hf⟩ | ⟨r, l1, l2, hf, hdec, hpre, hall⟩
  · constructor
    · intro _; rw [hbest, hf]
    · intro hne2; exact absurd hnil hne2
  · constructor
    · intro hnil; rw [hnil] at hdec; exact absurd hdec (by simp)
    · intro _
      exact ⟨r, l1, l2, by rw [hbest, hf], hdec, hpre, hall⟩

def c1Sups : List Supplier := [⟨"A", .parsed (pointDoc 0 1)⟩, ⟨"B", .malformed⟩]

def c1Env : DbEnv :=
  { warehouseFetch := .ok (.parsed (pointDoc 0 0)), supplierFetch := .ok c1Sups }

theorem nearest_supplier_first_minimum_witness :
    ("W" : String) ≠ "" ∧
    get_coordinates_from_geojson (.parsed (pointDoc 0 0)) = .ok (some (.num 0, .num 0)) ∧
    ((supplierDists (jnum (.num 0)) (jnum (.num 0)) c1Sups = [] →
      (get_nearest_supplier "W" c1Env).result = .ok none) ∧
    (supplierDists (jnum (.num 0)) (jnum (.num 0)) c1Sups ≠ [] →
      ∃ r l1 l2, (get_nearest_supplier "W" c1Env).result = .ok (some r) ∧
        supplierDists (jnum (.num 0)) (jnum (.num 0)) c1Sups = l1 ++ (r.name, r.distance) :: l2 ∧
        (∀ p ∈ l1, r.distance < p.2) ∧
        (∀ p ∈ supplierDists (jnum (.num 0)) (jnum (.num 0)) c1Sups, r.distance ≤ p.2))) :=
  ⟨by decide, rfl,
    nearest_supplier_first_minimum "W" c1Env (.parsed (pointDoc 0 0)) (.num 0) (.num 0)
      c1Sups (by decide) rfl rfl rfl⟩

/-- C10: every error value the model's per-supplier processing can raise
— the parse error and every dynamic typing error, for any supplier — is
caught by the loop: a log entry with the supplier's identity is appended and
the scan continues, the best-so-far tracking being unaffected, so the final
result reflects the remaining successfully processed suppliers.  (The
embedded distance computation is total on the reals — see the C9 theorem —
so extraction errors are this model's whole per-supplier exception space.) -/
theorem supplier_exception_caught (lon1 lat1 : ℝ) (s : Supplier) (e : ExtractError)
    (rest : List Supplier) (b : Option NearestInfo) (m : EReal) (lg : List LogEntry)
    (he : get_coordinates_from_geojson s.custom_geolocation = .error e) :
    supplierLoop lon1 lat1 (s :: rest) ⟨b, m, lg⟩ =
      supplierLoop lon1 lat1 rest ⟨b, m, lg ++ [.supplierParseError s.name]⟩ ∧
    (supplierLoop lon1 lat1 (s :: rest) ⟨b, m, lg⟩).best =
      (supplierLoop lon1 lat1 rest ⟨b, m, lg⟩).best ∧
    LogEntry.supplierParseError s.name ∈ (supplierLoop lon1 lat1 (s :: rest) ⟨b, m, lg⟩).logs := by
  refine ⟨by simp only [supplierLoop, he], ?_, ?_⟩
  · simp only [supplierLoop, he]
    rw [supplierLoop_factor lon1 lat1 rest b m (lg ++ [LogEntry.supplierParseError s.name]),
      supplierLoop_factor lon1 lat1 rest b m lg]
  · simp only [supplierLoop, he]
    rw [supplierLoop_factor lon1 lat1 rest b m (lg ++ [LogEntry.supplierParseError s.name])]
    simp

theorem supplier_exception_caught_witness :
    get_coordinates_from_geojson (GeoStr.parsed (.num 7)) = .error (.pyErr .attributeError) ∧
    (supplierLoop 0 0 [⟨"X", .parsed (.num 7)⟩] ⟨none, ⊤, []⟩).best =
      (supplierLoop 0 0 [] ⟨none, ⊤, []⟩).best ∧
    LogEntry.supplierParseError "X" ∈ (supplierLoop 0 0 [⟨"X", .parsed (.num 7)⟩] ⟨none, ⊤, []⟩).logs := by
  refine ⟨rfl, ?_, ?_⟩
  · exact (supplier_exception_caught 0 0 ⟨"X", .parsed (.num 7)⟩ (.pyErr .attributeError)
      [] none ⊤ [] rfl).2.1
  · exact (supplier_exception_caught 0 0 ⟨"X", .parsed (.num 7)⟩ (.pyErr .attributeError)
      [] none ⊤ [] rfl).2.2

/-- C2 counterexample: in `badFeatureDoc` the first feature is the
number `5` — it fails the Point test — and the second is a valid Point
feature, yet the extractor raises an `AttributeError` (from `5.get(...)`)
instead of skipping the failing feature in favour of the later one. -/
theorem extractor_no_skip_cex :
    get_coordinates_from_geojson (.parsed badFeatureDoc) = .error (.pyErr .attributeError) ∧
    processFeature (pointFeature 1 2) = .ok (some (.num 1, .num 2)) ∧
    get_coordinates_from_geojson (.parsed badFeatureDoc) ≠ .ok (some (.num 1, .num 2)) := by
  refine ⟨rfl, rfl, fun hc => ?_⟩
  rw [show get_coordinates_from_geojson (.parsed badFeatureDoc)
      = .error (.pyErr .attributeError) from rfl] at hc
  exact Except.noConfusion hc

/-- C2 (amended): for a parsed mapping whose `features` key holds a
sequence, the extractor returns a point exactly when some feature passes
the Point test after nesting normalization with every earlier feature
evaluating to "no point" without raising — a feature that fails the test
without raising is skipped in favour of later features, while a feature
whose processing raises aborts the scan with that error instead of being
skipped.  Coordinates wrapped as `[[[2.5, 48.8]]]` yield the point
`(2.5, 48.8)`. -/
theorem extractor_first_point_order (fields : List (String × JValue)) (items : List JValue)
    (p : JValue × JValue) (h : fields.lookup "features" = some (.arr items)) :
    (get_coordinates_from_geojson (.parsed (.obj fields)) = .ok (some p) ↔
      ∃ l1 f l2, items = l1 ++ f :: l2 ∧ (∀ g ∈ l1, processFeature g = .ok none) ∧
        processFeature f = .ok (some p)) ∧
    get_coordinates_from_geojson (.parsed nestedPointDoc) =
      .ok (some (.num (5/2), .num (244/5))) := by
  refine ⟨?_, rfl⟩
  rw [show get_coordinates_from_geojson (.parsed (.obj fields))
      = (extractFromData (.obj fields)).mapError ExtractError.pyErr from rfl]
  by_cases hne : items = []
  · subst hne
    rw [extractFromData_falsy fields (by rw [h]; simp [truthy])]
    simp only [Except.mapError]
    constructor
    · intro hc; exact absurd hc (by simp)
    · rintro ⟨l1, f, l2, hd, -, -⟩; exact absurd hd (by simp)
  · rw [extractFromData_obj_arr fields items h hne, mapError_ok_iff, firstPoint_some_iff]

theorem extractor_first_point_order_witness :
    ([("features", JValue.arr [polyFeature, pointFeature 3 4])].lookup "features"
      = some (.arr [polyFeature, pointFeature 3 4])) ∧
    processFeature polyFeature = .ok none ∧
    get_coordinates_from_geojson
        (.parsed (.obj [("features", .arr [polyFeature, pointFeature 3 4])]))
      = .ok (some (.num 3, .num 4)) := by
  refine ⟨rfl, rfl, ?_⟩
  exact ((extractor_first_point_order [("features", .arr [polyFeature, pointFeature 3 4])]
      [polyFeature, pointFeature 3 4] (.num 3, .num 4) rfl).1).mpr
    ⟨[polyFeature], pointFeature 3 4, [], rfl,
      by intro g hg; simp only [List.mem_singleton] at hg; subst hg; rfl, rfl⟩

/-- C3 counterexample: the input parsing to the JSON document `5` is
non-empty, valid structured data whose parsed value has no `features` key,
yet the extractor neither returns absent nor raises the parse error: it
raises an `AttributeError` from `5.get("features")`. -/
theorem extractor_taxonomy_cex :
    get_coordinates_from_geojson (.parsed (.num 5)) = .error (.pyErr .attributeError) ∧
    get_coordinates_from_geojson (.parsed (.num 5)) ≠ .ok none ∧
    get_coordinates_from_geojson (.parsed (.num 5)) ≠ .error .parseError := by
  refine ⟨rfl, fun hc => ?_, fun hc => ?_⟩ <;>
  · rw [show get_coordinates_from_geojson (.parsed (.num 5))
        = .error (.pyErr .attributeError) from rfl] at hc
    first
      | exact Except.noConfusion hc
      | (injection hc with hc2; exact ExtractError.noConfusion hc2)

/-- C3 (amended): restricted to well-shaped inputs — the parsed value,
when present, is a mapping whose truthy `features` value is a sequence of
features none of which raises — the extractor returns absent exactly when
the input is empty/absent, or the mapping's `features` value is missing or
falsy, or every feature yields no point; and it raises the parse error
exactly when the input is non-empty but malformed.  (Outside that shape a
dynamic attribute/type error propagates instead, see the counterexample.) -/
theorem extractor_absent_and_parse_error (g : GeoStr) (hs : geoShaped g = true) :
    (get_coordinates_from_geojson g = .ok none ↔ absentSpec g) ∧
    (get_coordinates_from_geojson g = .error .parseError ↔ g = .malformed) := by
  rcases g with _ | _ | data
  · refine ⟨?_, ?_⟩
    · simp only [get_coordinates_from_geojson]
      exact ⟨fun _ => Or.inl rfl, fun _ => trivial⟩
    · constructor
      · intro h; exact absurd h (by simp [get_coordinates_from_geojson])
      · intro h; exact GeoStr.noConfusion h
  · refine ⟨?_, ?_⟩
    · constructor
      · intro h; exact absurd h (by simp [get_coordinates_from_geojson])
      · rintro (h | ⟨fields, h, -⟩) <;> exact GeoStr.noConfusion h
    · exact ⟨fun _ => rfl, fun _ => rfl⟩
  · rcases data with _ | b | q | s | xs | fields
    case null => exact absurd hs (by simp [geoShaped, docShaped])
    case bool => exact absurd hs (by simp [geoShaped, docShaped])
    case num => exact absurd hs (by simp [geoShaped, docShaped])
    case str => exact absurd hs (by simp [geoShaped, docShaped])
    case arr => exact absurd hs (by simp [geoShaped, docShaped])
    case obj =>
    simp only [geoShaped, docShaped] at hs
    have hres : get_coordinates_from_geojson (.parsed (.obj fields)) =
        (extractFromData (.obj fields)).mapError ExtractError.pyErr := rfl
    by_cases htr : truthy ((fields.lookup "features").getD .null) = true
    · have harr : ∃ items, (fields.lookup "features").getD .null = .arr items := by
        rcases hv : (fields.lookup "features").getD .null with _ | b | q | s | items | gs
        case arr => exact ⟨items, rfl⟩
        all_goals rw [hv] at hs htr
        all_goals simp_all [featsShaped, truthy]
      obtain ⟨items, hv⟩ := harr
      have hne : items ≠ [] := by
        intro h; subst h; rw [hv] at htr; simp [truthy] at htr
      have hlk : fields.lookup "features" = some (.arr items) := by
        rcases hl : fields.lookup "features" with _ | v
        · rw [hl] at hv; exact absurd hv (by simp)
        · rw [hl] at hv; simp only [Option.getD_some] at hv; rw [hv]
      have hred : extractFromData (.obj fields) = firstPoint items :=
        extractFromData_obj_arr fields items hlk hne
      refine ⟨?_, ?_⟩
      · rw [hres, hred, mapError_ok_iff, firstPoint_none_iff]
        constructor
        · intro h; exact Or.inr ⟨fields, rfl, Or.inr ⟨items, hlk, h⟩⟩
        · rintro (h | ⟨fields', hinj, h'⟩)
          · exact GeoStr.noConfusion h
          · have hf : fields' = fields := by
              have h2 := hinj
              simp only [GeoStr.parsed.injEq, JValue.obj.injEq] at h2
              exact h2.symm
            subst hf
            rcases h' with h' | ⟨items', hlk', h'⟩
            · rw [htr] at h'; exact Bool.noConfusion h'
            · rw [hlk] at hlk'
              have hit : items' = items := by
                simp only [Option.some.injEq, JValue.arr.injEq] at hlk'
                exact hlk'.symm
              subst hit; exact h'
      · constructor
        · intro h; rw [hres] at h; exact absurd h (mapError_ne_parseError _)
        · intro h; exact GeoStr.noConfusion h
    · have hfal : truthy ((fields.lookup "features").getD .null) = false :=
        Bool.eq_false_iff.mpr htr
      have hred : extractFromData (.obj fields) = .ok none := extractFromData_falsy fields hfal
      refine ⟨?_, ?_⟩
      · rw [hres, hred]
        simp only [Except.mapError]
        exact ⟨fun _ => Or.inr ⟨fields, rfl, Or.inl hfal⟩, fun _ => trivial⟩
      · constructor
        · intro h; rw [hres] at h; exact absurd h (mapError_ne_parseError _)
        · intro h; exact GeoStr.noConfusion h

theorem extractor_absent_and_parse_error_witness :
    geoShaped .malformed = true ∧
    get_coordinates_from_geojson .malformed = .error .parseError ∧
    geoShaped (.parsed (.obj [("features", .arr [])])) = true ∧
    get_coordinates_from_geojson (.parsed (.obj [("features", .arr [])])) = .ok none := by
  refine ⟨rfl, ?_, rfl, ?_⟩
  · exact (extractor_absent_and_parse_error .malformed rfl).2.mpr rfl
  · exact (extractor_absent_and_parse_error (.parsed (.obj [("features", .arr [])])) rfl).1.mpr
      (Or.inr ⟨[("features", .arr [])], rfl, Or.inl rfl⟩)
